import Mathlib

/-!
Verification of the dockerized-service Gate (src/index.js).

The program is an Express application with one module-level mutable
boolean, `isAuthenticated`, and three routes:

* `GET /`            — sends the fixed text "Hello World!";
* `GET /secret`      — sends an HTML login form when the flag is unset,
                       otherwise the template rendering of
                       `process.env.SECRET_MESSAGE`;
* `POST /authenticate` — compares the form fields `username` and
                       `password` against `process.env.USERNAME` and
                       `process.env.PASSWORD` with JavaScript `===`;
                       on match sets the flag and redirects to `/secret`,
                       otherwise sends an error text.

Environment variables and destructured body fields may be absent
(JavaScript `undefined`), so both are modelled as `Option String`:
`some s` is a string value, `none` is `undefined`.  JavaScript `===` on
values of type string-or-undefined coincides with decidable equality on
`Option String` (`undefined === undefined` is true, a string equals only
the identical string, a string never equals `undefined`).
-/

namespace DockerizedService

/-- The environment-supplied configuration, read via `process.env` after
`configDotenv()`.  Each variable may be absent (`undefined` in
JavaScript, `none` here). -/
structure Config where
  expectedUsername : Option String
  expectedPassword : Option String
  secretMessage : Option String
deriving DecidableEq

/-- The process-wide mutable state of the server: the single module-level
variable `let isAuthenticated = false` of src/index.js. -/
structure GateState where
  isAuthenticated : Bool
deriving DecidableEq

/-- The state at process start: `let isAuthenticated = false`. -/
def initialState : GateState := { isAuthenticated := false }

/-- An HTTP response produced by a handler: `res.send body` (an HTTP
success, status 200) or `res.redirect location` (status 302). -/
inductive Response where
  | text (body : String)
  | redirect (location : String)
deriving DecidableEq

/-- The HTTP status code of a response: Express `res.send` defaults to
200 and `res.redirect` to 302. -/
def Response.status : Response → Nat
  | .text _ => 200
  | .redirect _ => 302

/-- The multi-line template literal sent by `GET /secret` when the flag
is unset: the HTML login form posting `username` and `password` to
`/authenticate`. -/
def loginFormHtml : String :=
  "\n      <h1>You are not authenticated</h1>\n      <form method=\"POST\" action=\"/authenticate\">\n        <label for=\"username\">Enter Username:</label>\n        <input type=\"text\" name=\"username\" id=\"username\" required />\n        <label for=\"password\">Enter Password :</label>\n        <input type=\"text\" name=\"password\" id=\"password\" required />\n        <button type=\"submit\">Submit</button>\n      </form>\n    "

/-- JavaScript template-literal interpolation of a string-or-undefined
value: a present string renders as itself and `undefined` renders as the
literal string "undefined". -/
def renderTemplate : Option String → String
  | some s => s
  | none => "undefined"

/-- Handler of `GET /`: sends the fixed text "Hello World!" and touches
no state. -/
def showRoot (s : GateState) : GateState × Response :=
  (s, .text "Hello World!")

/-- Handler of `GET /secret`: when `isAuthenticated` is unset it sends
the login form, otherwise it sends the template rendering of
`process.env.SECRET_MESSAGE`; the state is returned unchanged in both
branches. -/
def showSecret (cfg : Config) (s : GateState) : GateState × Response :=
  if !s.isAuthenticated then
    (s, .text loginFormHtml)
  else
    (s, .text (renderTemplate cfg.secretMessage))

/-- Handler of `POST /authenticate`: destructures `username` and
`password` from the body (each possibly absent), compares them with
`===` against `process.env.USERNAME` and `process.env.PASSWORD`; on
match sets the flag and redirects to `/secret`, otherwise sends the
error text and leaves the state alone. -/
def authenticate (cfg : Config) (s : GateState) (username password : Option String) :
    GateState × Response :=
  if username == cfg.expectedUsername && password == cfg.expectedPassword then
    ({ isAuthenticated := true }, .redirect "/secret")
  else
    (s, .text "Invalid credentials, please try again.")

/-- Process startup: `configDotenv()` loads the environment and the
server starts listening.  No configuration value is validated, so
startup succeeds for every configuration, including one with absent
values, and the server begins in the initial state. -/
def startup (_cfg : Config) : Except String GateState :=
  .ok initialState

/-- One incoming request, abstracted from its HTTP encoding: which of
the three routes is hit, with the destructured body fields for
`POST /authenticate`. -/
inductive Op where
  | showRoot
  | showSecret
  | authenticate (username password : Option String)
deriving DecidableEq

/-- Dispatch of one request to its handler. -/
def step (cfg : Config) (s : GateState) : Op → GateState × Response
  | .showRoot => showRoot s
  | .showSecret => showSecret cfg s
  | .authenticate u p => authenticate cfg s u p

/-- An `Authenticate` request whose credentials match the configured
ones — the only kind of request whose handler takes the success
branch. -/
def Op.isSuccessfulAuth (cfg : Config) : Op → Bool
  | .authenticate u p => u == cfg.expectedUsername && p == cfg.expectedPassword
  | _ => false

/-- The state after serving a sequence of requests in order. -/
def runOps (cfg : Config) (s : GateState) : List Op → GateState
  | [] => s
  | op :: ops => runOps cfg (step cfg s op).1 ops

/-- A request together with the identity of the client that sent it.
The handlers read no client identity (no session, cookie or address),
which is what the trace semantics below makes precise. -/
def runTrace (cfg : Config) (s : GateState) : List (Nat × Op) → GateState
  | [] => s
  | (_, op) :: rest => runTrace cfg (step cfg s op).1 rest

/-- A fixed configuration used for concrete witnesses:
`USERNAME=admin, PASSWORD=secret123`. -/
def cfgAdmin : Config :=
  { expectedUsername := some "admin"
    expectedPassword := some "secret123"
    secretMessage := some "The cake is a lie" }

/-! ### Lemmas about single steps and traces -/

theorem step_fst_showSecret (cfg : Config) (s : GateState) :
    (step cfg s .showSecret).1 = s := by
  simp only [step, showSecret]
  split <;> rfl

theorem step_mono (cfg : Config) (s : GateState) (op : Op)
    (h : s.isAuthenticated = true) : (step cfg s op).1.isAuthenticated = true := by
  cases op with
  | showRoot => exact h
  | showSecret => rw [step_fst_showSecret]; exact h
  | authenticate u p =>
      simp only [step, authenticate]
      split
      · rfl
      · exact h

theorem step_auth_success (cfg : Config) (s : GateState) (op : Op)
    (h : Op.isSuccessfulAuth cfg op = true) :
    (step cfg s op).1.isAuthenticated = true := by
  cases op with
  | showRoot => simp [Op.isSuccessfulAuth] at h
  | showSecret => simp [Op.isSuccessfulAuth] at h
  | authenticate u p =>
      simp only [Op.isSuccessfulAuth] at h
      simp [step, authenticate, h]

theorem step_auth_source (cfg : Config) (s : GateState) (op : Op)
    (h : (step cfg s op).1.isAuthenticated = true) :
    s.isAuthenticated = true ∨ Op.isSuccessfulAuth cfg op = true := by
  cases op with
  | showRoot => exact Or.inl h
  | showSecret => rw [step_fst_showSecret] at h; exact Or.inl h
  | authenticate u p =>
      by_cases hc : (u == cfg.expectedUsername && p == cfg.expectedPassword) = true
      · exact Or.inr hc
      · left
        have hfail : step cfg s (.authenticate u p) =
            (s, Response.text "Invalid credentials, please try again.") := by
          simp only [step, authenticate]
          rw [if_neg hc]
        rw [hfail] at h
        exact h

theorem runOps_mono (cfg : Config) (ops : List Op) (s : GateState)
    (h : s.isAuthenticated = true) : (runOps cfg s ops).isAuthenticated = true := by
  induction ops generalizing s with
  | nil => exact h
  | cons op ops ih => exact ih _ (step_mono cfg s op h)

theorem runOps_none_false (cfg : Config) (ops : List Op) (s : GateState)
    (hs : s.isAuthenticated = false)
    (h : ∀ op ∈ ops, Op.isSuccessfulAuth cfg op = false) :
    (runOps cfg s ops).isAuthenticated = false := by
  induction ops generalizing s with
  | nil => exact hs
  | cons op ops ih =>
      have hop := h op (List.mem_cons_self op ops)
      have hstep : (step cfg s op).1.isAuthenticated = false := by
        cases hnew : (step cfg s op).1.isAuthenticated with
        | false => rfl
        | true =>
            rcases step_auth_source cfg s op hnew with h1 | h2
            · rw [hs] at h1; exact absurd h1 (by simp)
            · rw [hop] at h2; exact absurd h2 (by simp)
      exact ih _ hstep fun o ho => h o (List.mem_cons_of_mem op ho)

theorem runOps_exists_true (cfg : Config) (ops : List Op) (s : GateState)
    (h : ∃ op ∈ ops, Op.isSuccessfulAuth cfg op = true) :
    (runOps cfg s ops).isAuthenticated = true := by
  induction ops generalizing s with
  | nil => rcases h with ⟨op, hmem, _⟩; cases hmem
  | cons op ops ih =>
      rcases h with ⟨o, hmem, ho⟩
      rcases List.mem_cons.mp hmem with rfl | hmem2
      · exact runOps_mono cfg ops _ (step_auth_success cfg s o ho)
      · exact ih _ ⟨o, hmem2, ho⟩

theorem runOps_append (cfg : Config) (pre post : List Op) (s : GateState) :
    runOps cfg s (pre ++ post) = runOps cfg (runOps cfg s pre) post := by
  induction pre generalizing s with
  | nil => rfl
  | cons op ops ih => simp [runOps, ih]

theorem runTrace_eq_runOps (cfg : Config) (trace : List (Nat × Op)) (s : GateState) :
    runTrace cfg s trace = runOps cfg s (trace.map Prod.snd) := by
  induction trace generalizing s with
  | nil => rfl
  | cons e rest ih =>
      cases e with
      | mk c op => simp [runTrace, runOps, ih]

/-! ### Claims -/

/-- Claim C1: the flag `authenticated` starts at false, a step makes it
true only when the state already had it true or the request is an
`Authenticate` with matching credentials, no operation ever moves it
from true to false, and over reachable traces the flag is monotone:
once true after some prefix, it is still true after any extension. -/
theorem C1_flag_monotone_one_way :
    initialState.isAuthenticated = false ∧
    (∀ cfg s op, (step cfg s op).1.isAuthenticated = true →
      s.isAuthenticated = true ∨ Op.isSuccessfulAuth cfg op = true) ∧
    (∀ cfg s op, s.isAuthenticated = true → (step cfg s op).1.isAuthenticated = true) ∧
    (∀ cfg (pre post : List Op),
      (runOps cfg initialState pre).isAuthenticated = true →
      (runOps cfg initialState (pre ++ post)).isAuthenticated = true) := by
  refine ⟨rfl, step_auth_source, step_mono, fun cfg pre post h => ?_⟩
  rw [runOps_append]
  exact runOps_mono cfg post _ h

/-- Witness for C1: concrete instances of the three conditional
conjuncts, with the hypotheses discharged at explicit inputs. -/
theorem C1_flag_monotone_one_way_witness :
    (({ isAuthenticated := false } : GateState).isAuthenticated = true ∨
      Op.isSuccessfulAuth cfgAdmin (Op.authenticate (some "admin") (some "secret123")) = true) ∧
    (step cfgAdmin { isAuthenticated := true } Op.showSecret).1.isAuthenticated = true ∧
    (runOps cfgAdmin initialState
      ([Op.authenticate (some "admin") (some "secret123")] ++ [Op.showSecret])).isAuthenticated
      = true :=
  ⟨C1_flag_monotone_one_way.2.1 cfgAdmin { isAuthenticated := false }
      (Op.authenticate (some "admin") (some "secret123")) (by decide),
   C1_flag_monotone_one_way.2.2.1 cfgAdmin { isAuthenticated := true } Op.showSecret rfl,
   C1_flag_monotone_one_way.2.2.2 cfgAdmin
      [Op.authenticate (some "admin") (some "secret123")] [Op.showSecret] (by decide)⟩

/-- Claim C2: `authenticate` with a username equal to the configured
username and a password equal to the configured password sets the flag
to true and redirects to `/secret`; in particular it does so with the
credentials admin / secret123 under the matching configuration. -/
theorem C2_authenticate_success :
    (∀ cfg s u p, u = cfg.expectedUsername → p = cfg.expectedPassword →
      authenticate cfg s u p = ({ isAuthenticated := true }, Response.redirect "/secret")) ∧
    authenticate cfgAdmin initialState (some "admin") (some "secret123") =
      ({ isAuthenticated := true }, Response.redirect "/secret") := by
  constructor
  · intro cfg s u p hu hp
    subst hu; subst hp
    simp [authenticate]
  · decide

/-- Witness for C2: the success branch applied at the admin / secret123
configuration. -/
theorem C2_authenticate_success_witness :
    authenticate cfgAdmin initialState (some "admin") (some "secret123") =
      ({ isAuthenticated := true }, Response.redirect "/secret") :=
  C2_authenticate_success.1 cfgAdmin initialState (some "admin") (some "secret123") rfl rfl

/-- Claim C3: when the username or the password differs from the
configured value, `authenticate` leaves the state unchanged and sends
the literal text "Invalid credentials, please try again." with HTTP
status 200, a success status. -/
theorem C3_authenticate_mismatch (cfg : Config) (s : GateState) (u p : Option String)
    (h : ¬(u = cfg.expectedUsername ∧ p = cfg.expectedPassword)) :
    authenticate cfg s u p = (s, Response.text "Invalid credentials, please try again.") ∧
    (authenticate cfg s u p).2.status = 200 := by
  have hc : ¬((u == cfg.expectedUsername && p == cfg.expectedPassword) = true) := by
    simp only [Bool.and_eq_true, beq_iff_eq]
    exact h
  have e : authenticate cfg s u p =
      (s, Response.text "Invalid credentials, please try again.") := by
    unfold authenticate
    rw [if_neg hc]
  exact ⟨e, by rw [e]; rfl⟩

/-- Witness for C3: the wrong username "wrong" with the correct password
leaves the initial state unchanged and produces the error text under
status 200. -/
theorem C3_authenticate_mismatch_witness :
    authenticate cfgAdmin initialState (some "wrong") (some "secret123") =
      (initialState, Response.text "Invalid credentials, please try again.") ∧
    (authenticate cfgAdmin initialState (some "wrong") (some "secret123")).2.status = 200 :=
  C3_authenticate_mismatch cfgAdmin initialState (some "wrong") (some "secret123") (by decide)

/-- Claim C4: `showSecret` never changes the state; with the flag unset
it sends the HTML login form, and with the flag set it sends the
configured secret message when one is configured. -/
theorem C4_showSecret_branches (cfg : Config) (s : GateState) :
    (showSecret cfg s).1 = s ∧
    (s.isAuthenticated = false → (showSecret cfg s).2 = Response.text loginFormHtml) ∧
    (∀ m, s.isAuthenticated = true → cfg.secretMessage = some m →
      (showSecret cfg s).2 = Response.text m) := by
  refine ⟨?_, ?_, ?_⟩
  · unfold showSecret
    split <;> rfl
  · intro h
    simp [showSecret, h]
  · intro m h hm
    simp [showSecret, h, hm, renderTemplate]

/-- Witness for C4: both branches evaluated at the admin configuration,
with the hypotheses discharged at explicit states. -/
theorem C4_showSecret_branches_witness :
    (showSecret cfgAdmin initialState).2 = Response.text loginFormHtml ∧
    (showSecret cfgAdmin { isAuthenticated := true }).2 = Response.text "The cake is a lie" :=
  ⟨(C4_showSecret_branches cfgAdmin initialState).2.1 rfl,
   (C4_showSecret_branches cfgAdmin { isAuthenticated := true }).2.2
     "The cake is a lie" rfl rfl⟩

/-- Claim C5: over any trace of requests from arbitrary clients starting
at process start, `GET /secret` returns the login form as long as no
successful `Authenticate` occurred, returns the secret text as soon as
some client issued one successful `Authenticate`, and the resulting
state ignores client identity entirely (no per-client scoping). -/
theorem C5_secret_gating (cfg : Config) (trace : List (Nat × Op)) :
    ((∀ e ∈ trace, Op.isSuccessfulAuth cfg e.2 = false) →
      (showSecret cfg (runTrace cfg initialState trace)).2 = Response.text loginFormHtml) ∧
    ((∃ e ∈ trace, Op.isSuccessfulAuth cfg e.2 = true) →
      (showSecret cfg (runTrace cfg initialState trace)).2 =
        Response.text (renderTemplate cfg.secretMessage)) ∧
    (∀ s, runTrace cfg s trace = runOps cfg s (trace.map Prod.snd)) := by
  refine ⟨?_, ?_, fun s => runTrace_eq_runOps cfg trace s⟩
  · intro h
    have hf : (runTrace cfg initialState trace).isAuthenticated = false := by
      rw [runTrace_eq_runOps]
      refine runOps_none_false cfg _ initialState rfl ?_
      intro op hop
      rcases List.mem_map.mp hop with ⟨e, he, rfl⟩
      exact h e he
    simp [showSecret, hf]
  · rintro ⟨e, he, hsucc⟩
    have ht : (runTrace cfg initialState trace).isAuthenticated = true := by
      rw [runTrace_eq_runOps]
      exact runOps_exists_true cfg _ initialState
        ⟨e.2, List.mem_map.mpr ⟨e, he, rfl⟩, hsucc⟩
    simp [showSecret, ht]

/-- Witness for C5: a concrete trace with no successful login yields the
form; a trace in which client 0 logs in and client 1 then reads the
secret yields the secret text. -/
theorem C5_secret_gating_witness :
    (showSecret cfgAdmin
      (runTrace cfgAdmin initialState [(0, Op.showSecret), (1, Op.showRoot)])).2 =
      Response.text loginFormHtml ∧
    (showSecret cfgAdmin
      (runTrace cfgAdmin initialState
        [(0, Op.authenticate (some "admin") (some "secret123")), (1, Op.showSecret)])).2 =
      Response.text (renderTemplate cfgAdmin.secretMessage) :=
  ⟨(C5_secret_gating cfgAdmin [(0, Op.showSecret), (1, Op.showRoot)]).1 (by decide),
   (C5_secret_gating cfgAdmin
      [(0, Op.authenticate (some "admin") (some "secret123")), (1, Op.showSecret)]).2.1
      (by decide)⟩

/-- Claim C6: re-authenticating with correct credentials while the flag
is already true keeps the flag true and still redirects to `/secret`,
with no error. -/
theorem C6_reauthenticate_idempotent (cfg : Config) (u p : Option String)
    (hu : u = cfg.expectedUsername) (hp : p = cfg.expectedPassword) :
    authenticate cfg { isAuthenticated := true } u p =
      ({ isAuthenticated := true }, Response.redirect "/secret") := by
  subst hu; subst hp
  simp [authenticate]

/-- Witness for C6: the admin credentials applied a second time from the
already-authenticated state. -/
theorem C6_reauthenticate_idempotent_witness :
    authenticate cfgAdmin { isAuthenticated := true } (some "admin") (some "secret123") =
      ({ isAuthenticated := true }, Response.redirect "/secret") :=
  C6_reauthenticate_idempotent cfgAdmin (some "admin") (some "secret123") rfl rfl

/-- Claim C7: `showRoot` sends exactly the text "Hello World!" and
leaves the state untouched, whatever the prior state. -/
theorem C7_showRoot_constant (s : GateState) :
    showRoot s = (s, Response.text "Hello World!") := rfl

/-- Claim C8: absent configuration values never abort startup — startup
succeeds for every configuration — and `authenticate` still runs its
comparison against the (possibly absent) configured values: its decision
is exactly the equality of the supplied fields with the configured ones,
absent or not. -/
theorem C8_no_fail_fast (cfg : Config) (s : GateState) (u p : Option String) :
    startup cfg = Except.ok initialState ∧
    ((authenticate cfg s u p).2 = Response.redirect "/secret" ↔
      u = cfg.expectedUsername ∧ p = cfg.expectedPassword) := by
  refine ⟨rfl, ?_⟩
  unfold authenticate
  by_cases hc : (u == cfg.expectedUsername && p == cfg.expectedPassword) = true
  · rw [if_pos hc]
    simp only [Bool.and_eq_true, beq_iff_eq] at hc
    simp [hc]
  · rw [if_neg hc]
    simp only [Bool.and_eq_true, beq_iff_eq] at hc
    simp [hc]

/-- Claim C9: with both configured credentials absent and both body
fields absent, the comparisons `undefined === undefined` succeed, the
flag flips to true and the response redirects to `/secret`. -/
theorem C9_absent_config_auth_succeeds :
    authenticate
        { expectedUsername := none, expectedPassword := none, secretMessage := none }
        initialState none none =
      ({ isAuthenticated := true }, Response.redirect "/secret") := rfl

/-- Claim C10: with the flag set and `SECRET_MESSAGE` absent,
`showSecret` sends the literal string "undefined", the template-literal
rendering of an undefined value. -/
theorem C10_absent_secret_renders_undefined (cfg : Config) (s : GateState)
    (hs : s.isAuthenticated = true) (hm : cfg.secretMessage = none) :
    (showSecret cfg s).2 = Response.text "undefined" := by
  simp [showSecret, hs, hm, renderTemplate]

/-- Witness for C10: a configuration with no secret message, read from
the authenticated state. -/
theorem C10_absent_secret_renders_undefined_witness :
    (showSecret
      { expectedUsername := some "admin", expectedPassword := some "secret123",
        secretMessage := none }
      { isAuthenticated := true }).2 = Response.text "undefined" :=
  C10_absent_secret_renders_undefined
    { expectedUsername := some "admin", expectedPassword := some "secret123",
      secretMessage := none }
    { isAuthenticated := true } rfl rfl

end DockerizedService
